import Mathlib

/-!
TelescopeClient (Stellarium Telescope Control plug-in)

A shallow embedding of `plugins/TelescopeControl/src/clients/TelescopeClient.hpp`
and the properties of its FOV-indicator list, its default communication hooks
and its constant display metadata.

* C++ `double` and `float` are IEEE 754 binary64 / binary32 bit patterns
  (sign, biased exponent, fraction); the comparison `fov>=0.0` is the IEEE
  ordered comparison (false on NaN, `-0.0 >= 0.0` true).
* `QList<double>` is a `List Double`; `push_back` appends at the end.
* The object state is a record of the fields declared in the class plus the
  state `ext` owned by whatever concrete subclass / base the object has.
-/

namespace Stellarium

/-! ## IEEE 754 binary64 (`double`) -/

/-- An IEEE 754 binary64 bit pattern: sign bit, 11-bit biased exponent,
52-bit fraction. -/
structure Double where
  sign : Bool
  exponent : Fin 2048
  mantissa : Fin 4503599627370496
  deriving DecidableEq, Repr

namespace Double

/-- The literal `0.0`. -/
def zero : Double := ⟨false, 0, 0⟩

/-- The value `-0.0`. -/
def negZero : Double := ⟨true, 0, 0⟩

/-- A quiet NaN. -/
def qnan : Double := ⟨false, 2047, 2251799813685248⟩

/-- Exponent all ones and non-zero fraction. -/
def isNaN (d : Double) : Bool :=
  d.exponent.val == 2047 && d.mantissa.val != 0

/-- Magnitude of the bit pattern without its sign: for non-NaN patterns the
order of magnitudes is the order of these numbers (infinity is the largest). -/
def magnitude (d : Double) : Nat :=
  d.exponent.val * 4503599627370496 + d.mantissa.val

/-- Signed ordering key of a non-NaN pattern; `0.0` and `-0.0` both give 0. -/
def key (d : Double) : Int :=
  if d.sign then - (d.magnitude : Int) else (d.magnitude : Int)

/-- The C++ comparison `a >= b` on doubles: false when either side is NaN. -/
def ge (a b : Double) : Bool :=
  !a.isNaN && !b.isNaN && decide (b.key ≤ a.key)

/-- The C++ comparison `a < b` on doubles: false when either side is NaN. -/
def lt (a b : Double) : Bool :=
  !a.isNaN && !b.isNaN && decide (a.key < b.key)

/-- The rational value of a finite pattern; `none` for infinities and NaN. -/
def toRat? (d : Double) : Option ℚ :=
  if d.exponent.val = 2047 then none
  else
    let m : ℚ :=
      if d.exponent.val = 0 then (d.mantissa.val : ℚ) * (2 : ℚ) ^ (-1074 : Int)
      else ((4503599627370496 + d.mantissa.val : Nat) : ℚ)
            * (2 : ℚ) ^ ((d.exponent.val : Int) - 1075)
    some (if d.sign then -m else m)

/-- The value `1.0`. -/
def one : Double := ⟨false, 1023, 0⟩

/-- The value `-1.0`. -/
def negOne : Double := ⟨true, 1023, 0⟩

/-- The value `2.5` (1.25 * 2). -/
def twoAndHalf : Double := ⟨false, ⟨1024, by decide⟩, ⟨1125899906842624, by decide⟩⟩

/-- The value `+infinity`. -/
def posInf : Double := ⟨false, 2047, 0⟩

/-- The value `-infinity`. -/
def negInf : Double := ⟨true, 2047, 0⟩

end Double

/-! ## IEEE 754 binary32 (`float`) -/

/-- An IEEE 754 binary32 bit pattern: sign bit, 8-bit biased exponent,
23-bit fraction. -/
structure Float32 where
  sign : Bool
  exponent : Fin 256
  mantissa : Fin 8388608
  deriving DecidableEq, Repr

namespace Float32

/-- The rational value of a finite pattern; `none` for infinities and NaN. -/
def toRat? (f : Float32) : Option ℚ :=
  if f.exponent.val = 255 then none
  else
    let m : ℚ :=
      if f.exponent.val = 0 then (f.mantissa.val : ℚ) * (2 : ℚ) ^ (-149 : Int)
      else ((8388608 + f.mantissa.val : Nat) : ℚ)
            * (2 : ℚ) ^ ((f.exponent.val : Int) - 150)
    some (if f.sign then -m else m)

/-- The literal `-10.f`: sign 1, exponent 127+3, fraction 0.25 (1.25 * 8). -/
def negTen : Float32 := ⟨true, ⟨130, by decide⟩, ⟨2097152, by decide⟩⟩

end Float32

/-! ## The object state -/

/-- The data members of a `TelescopeClient` object: `nameI18n`, `name`,
`fovCircles`, and `ext`, the state that belongs to the concrete subclass
(connection, cached position, buffers) which the abstract class never
touches. -/
structure TelescopeClient (σ : Type) where
  nameI18n : String
  name : String
  fovCircles : List Double
  ext : σ

namespace TelescopeClient

variable {σ : Type}

/-- Source: `QString getEnglishName() const {return name;}` -/
def getEnglishName (s : TelescopeClient σ) : String := s.name

/-- Source: `QString getNameI18n() const {return nameI18n;}` -/
def getNameI18n (s : TelescopeClient σ) : String := s.nameI18n

/-- Source: `QString getType(void) const {return "Telescope";}` -/
def getType (_s : TelescopeClient σ) : String := "Telescope"

/-- Source: `virtual bool isInitialized(void) const {return true;}` -/
def isInitialized (_s : TelescopeClient σ) : Bool := true

/-- Source: `void addFovCircle(double fov) {if (fov>=0.0) fovCircles.push_back(fov);}` -/
def addFovCircle (s : TelescopeClient σ) (fov : Double) : TelescopeClient σ :=
  if Double.ge fov Double.zero then { s with fovCircles := s.fovCircles ++ [fov] }
  else s

/-- Source: `const QList<double>& getFovCircles() const {return fovCircles;}` -/
def getFovCircles (s : TelescopeClient σ) : List Double := s.fovCircles

/-- Source: `void resetFovCircles() { fovCircles.clear(); }` -/
def resetFovCircles (s : TelescopeClient σ) : TelescopeClient σ :=
  { s with fovCircles := [] }

/-- Source: `virtual bool prepareCommunication() {return false;}`: the returned value
and the state after the call. -/
def prepareCommunication (s : TelescopeClient σ) : Bool × TelescopeClient σ :=
  (false, s)

/-- Source: `virtual void performCommunication() {}` -/
def performCommunication (s : TelescopeClient σ) : TelescopeClient σ := s

/-- Source: `float getSelectPriority(const StelCore* core) const
{Q_UNUSED(core); return -10.f;}`; the pointer argument is an optional
reference to a core of type `κ`. -/
def getSelectPriority {κ : Type} (_s : TelescopeClient σ) (_core : Option κ) : Float32 :=
  Float32.negTen

end TelescopeClient

/-! ## Sequences of calls made by the host -/

/-- One call the host can make on a client that keeps the default hooks. -/
inductive Op where
  | addFovCircle (fov : Double)
  | resetFovCircles
  | prepareCommunication
  | performCommunication
  deriving DecidableEq, Repr

/-- The state after one call. -/
def Op.apply {σ : Type} (s : TelescopeClient σ) : Op → TelescopeClient σ
  | .addFovCircle fov => s.addFovCircle fov
  | .resetFovCircles => s.resetFovCircles
  | .prepareCommunication => s.prepareCommunication.2
  | .performCommunication => s.performCommunication

/-- The state after a sequence of calls, first call first. -/
def run {σ : Type} (s : TelescopeClient σ) (ops : List Op) : TelescopeClient σ :=
  ops.foldl Op.apply s

/-- The property every stored FOV value has: it passes the test `>= 0.0`. -/
def AllNonNeg {σ : Type} (s : TelescopeClient σ) : Prop :=
  ∀ x ∈ s.getFovCircles, Double.ge x Double.zero = true

/-- A freshly configured client with no FOV circle yet. -/
def sampleClient : TelescopeClient Nat :=
  { nameI18n := "Teleskop 1", name := "Telescope 1", fovCircles := [], ext := 7 }

/-! ## Connection notifications -/

/-- The two signals declared by the class: `connectionEstablished()` and
`connectionLost()`. -/
inductive Signal where
  | connectionEstablished
  | connectionLost
  deriving DecidableEq, Repr

/-- Modelled from the spec: the connection states of the conceptual state
machine of section 4.2 (`Disconnected → Connecting → Connected →
(Lost → Disconnected | Connected)`); the header declares only the signals,
the code that tracks the state and emits them is not part of the file. -/
inductive ConnState where
  | Disconnected
  | Connecting
  | Connected
  | Lost
  deriving DecidableEq, Repr

/-- Modelled from the spec: the emitting code is missing from the header.
The state-transition function compares the previous state with the next one
and emits only on an edge: entering `Connected` from any other state emits
`connectionEstablished`, `Connected → Lost` emits `connectionLost`, anything
else (a repeated poll in particular) emits nothing. -/
def notify (prev next : ConnState) : List Signal :=
  match prev, next with
  | .Connected, .Connected => []
  | _, .Connected => [Signal.connectionEstablished]
  | .Connected, .Lost => [Signal.connectionLost]
  | _, _ => []

/-- Modelled from the spec: the signals emitted while the state machine,
currently in `prev`, goes through the states `states` one poll after the
other. -/
def emitFrom (prev : ConnState) : List ConnState → List Signal
  | [] => []
  | next :: rest => notify prev next ++ emitFrom next rest

/-- Modelled from the spec: the signals emitted over a run given as the list
of the states it visits, the initial state first. -/
def emitted : List ConnState → List Signal
  | [] => []
  | init :: rest => emitFrom init rest

/-- The transitions of a run: each state paired with its successor. -/
def transitions (states : List ConnState) : List (ConnState × ConnState) :=
  states.zip states.tail

/-- Number of transitions of a run that enter `Connected` from another state. -/
def establishedEdges (states : List ConnState) : Nat :=
  (transitions states).countP
    (fun e => decide (e.1 ≠ ConnState.Connected ∧ e.2 = ConnState.Connected))

/-- Number of transitions `Connected → Lost` of a run. -/
def lostEdges (states : List ConnState) : Nat :=
  (transitions states).countP
    (fun e => decide (e.1 = ConnState.Connected ∧ e.2 = ConnState.Lost))

/-- The run `Disconnected, Connecting, Connected, Connected, Lost, Connected`. -/
def sampleRun : List ConnState :=
  [.Disconnected, .Connecting, .Connected, .Connected, .Lost, .Connected]

/-! ## Facts about the comparison with `0.0` -/

namespace Double

theorem isNaN_zero : zero.isNaN = false := by decide

theorem key_zero : zero.key = 0 := by decide

theorem ge_zero_iff (d : Double) :
    Double.ge d zero = true ↔ d.isNaN = false ∧ 0 ≤ d.key := by
  simp [Double.ge, isNaN_zero, key_zero]

theorem lt_zero_iff (d : Double) :
    Double.lt d zero = true ↔ d.isNaN = false ∧ d.key < 0 := by
  simp [Double.lt, isNaN_zero, key_zero]

/-- A value below zero is not `>= 0.0`. -/
theorem ge_zero_of_lt_zero (d : Double) (h : Double.lt d zero = true) :
    Double.ge d zero = false := by
  rw [lt_zero_iff] at h
  cases hg : Double.ge d zero with
  | false => rfl
  | true =>
    rw [ge_zero_iff] at hg
    omega

/-- A value that is `>= 0.0` is not below zero. -/
theorem lt_zero_of_ge_zero (d : Double) (h : Double.ge d zero = true) :
    Double.lt d zero = false := by
  cases hl : Double.lt d zero with
  | false => rfl
  | true => rw [ge_zero_of_lt_zero d hl] at h; cases h

theorem magnitude_eq_zero (d : Double) (h : d.magnitude = 0) :
    d.exponent.val = 0 ∧ d.mantissa.val = 0 := by
  unfold magnitude at h
  omega

/-- The finite magnitude a pattern denotes is never negative. -/
theorem toRat_nonneg_of_ge_zero (d : Double) (h : Double.ge d zero = true) (q : ℚ)
    (hq : d.toRat? = some q) : 0 ≤ q := by
  rw [ge_zero_iff] at h
  obtain ⟨_, hk⟩ := h
  unfold toRat? at hq
  split at hq
  · cases hq
  · simp only [Option.some.injEq] at hq
    subst hq
    cases hs : d.sign with
    | false =>
      simp only [Bool.false_eq_true, if_false]
      split <;> positivity
    | true =>
      simp only [key, hs, if_true] at hk
      have hm : d.magnitude = 0 := by omega
      obtain ⟨he, hm2⟩ := magnitude_eq_zero d hm
      simp [he, hm2]

theorem toRat_neg_of_lt_zero (d : Double) (h : Double.lt d zero = true) (q : ℚ)
    (hq : d.toRat? = some q) : q < 0 := by
  rw [lt_zero_iff] at h
  obtain ⟨_, hk⟩ := h
  unfold toRat? at hq
  split at hq
  · cases hq
  · simp only [Option.some.injEq] at hq
    subst hq
    cases hs : d.sign with
    | false =>
      simp only [key, hs, Bool.false_eq_true, if_false] at hk
      omega
    | true =>
      simp only [key, hs, if_true] at hk
      have hm : 0 < d.magnitude := by omega
      simp only [if_true, neg_neg_iff_pos]
      split
      · rename_i he
        have : 0 < d.mantissa.val := by
          unfold magnitude at hm; omega
        have : (0 : ℚ) < (d.mantissa.val : ℚ) := by exact_mod_cast this
        positivity
      · positivity

end Double

/-! ## Facts about the FOV list -/

namespace TelescopeClient

variable {σ : Type}

theorem getFovCircles_addFovCircle (s : TelescopeClient σ) (fov : Double) :
    getFovCircles (addFovCircle s fov)
      = getFovCircles s ++ (if Double.ge fov Double.zero then [fov] else []) := by
  unfold addFovCircle getFovCircles
  split <;> simp

theorem getFovCircles_foldl_addFovCircle (fovs : List Double) (s : TelescopeClient σ) :
    getFovCircles (fovs.foldl addFovCircle s)
      = getFovCircles s ++ fovs.filter (fun f => Double.ge f Double.zero) := by
  induction fovs generalizing s with
  | nil => simp
  | cons f rest ih =>
    rw [List.foldl_cons, ih, getFovCircles_addFovCircle]
    cases h : Double.ge f Double.zero <;> simp [List.filter_cons, h]

theorem frame_addFovCircle (s : TelescopeClient σ) (fov : Double) :
    (addFovCircle s fov).name = s.name ∧ (addFovCircle s fov).nameI18n = s.nameI18n
      ∧ (addFovCircle s fov).ext = s.ext := by
  unfold addFovCircle
  split <;> simp

theorem frame_foldl_addFovCircle (fovs : List Double) (s : TelescopeClient σ) :
    (fovs.foldl addFovCircle s).name = s.name
      ∧ (fovs.foldl addFovCircle s).nameI18n = s.nameI18n
      ∧ (fovs.foldl addFovCircle s).ext = s.ext := by
  induction fovs generalizing s with
  | nil => simp
  | cons f rest ih =>
    rw [List.foldl_cons]
    obtain ⟨h1, h2, h3⟩ := ih (addFovCircle s f)
    obtain ⟨g1, g2, g3⟩ := frame_addFovCircle s f
    exact ⟨h1.trans g1, h2.trans g2, h3.trans g3⟩

theorem allNonNeg_apply (s : TelescopeClient σ) (op : Op) (h : AllNonNeg s) :
    AllNonNeg (Op.apply s op) := by
  cases op with
  | addFovCircle fov =>
    intro x hx
    simp only [Op.apply, getFovCircles_addFovCircle, List.mem_append] at hx
    rcases hx with hx | hx
    · exact h x hx
    · split at hx
      · rename_i hge
        simp only [List.mem_singleton] at hx
        rw [hx]; exact hge
      · cases hx
  | resetFovCircles =>
    intro x hx
    simp [Op.apply, resetFovCircles, getFovCircles] at hx
  | prepareCommunication => exact h
  | performCommunication => exact h

theorem allNonNeg_run (ops : List Op) (s : TelescopeClient σ) (h : AllNonNeg s) :
    AllNonNeg (run s ops) := by
  induction ops generalizing s with
  | nil => exact h
  | cons op rest ih => exact ih (Op.apply s op) (allNonNeg_apply s op h)

end TelescopeClient

/-! ## Facts about the notifications of a run -/

theorem transitions_cons_cons (a b : ConnState) (rest : List ConnState) :
    transitions (a :: b :: rest) = (a, b) :: transitions (b :: rest) := by
  simp [transitions]

theorem count_established_notify (prev next : ConnState) :
    (notify prev next).count Signal.connectionEstablished
      = if prev ≠ ConnState.Connected ∧ next = ConnState.Connected then 1 else 0 := by
  cases prev <;> cases next <;> decide

theorem count_lost_notify (prev next : ConnState) :
    (notify prev next).count Signal.connectionLost
      = if prev = ConnState.Connected ∧ next = ConnState.Lost then 1 else 0 := by
  cases prev <;> cases next <;> decide

theorem count_established_emitFrom (rest : List ConnState) (prev : ConnState) :
    (emitFrom prev rest).count Signal.connectionEstablished
      = establishedEdges (prev :: rest) := by
  induction rest generalizing prev with
  | nil => simp [emitFrom, establishedEdges, transitions]
  | cons next rest ih =>
    simp only [emitFrom, List.count_append, ih, count_established_notify, establishedEdges,
      transitions_cons_cons, List.countP_cons]
    split <;> simp_all [Nat.add_comm]

theorem count_lost_emitFrom (rest : List ConnState) (prev : ConnState) :
    (emitFrom prev rest).count Signal.connectionLost = lostEdges (prev :: rest) := by
  induction rest generalizing prev with
  | nil => simp [emitFrom, lostEdges, transitions]
  | cons next rest ih =>
    simp only [emitFrom, List.count_append, ih, count_lost_notify, lostEdges,
      transitions_cons_cons, List.countP_cons]
    split <;> simp_all [Nat.add_comm]

/-! ## The claims -/

open TelescopeClient

/-- C1: feeding any finite sequence of values one by one to `addFovCircle`,
starting from a client whose FOV list is empty, makes `getFovCircles` return
exactly the values that pass `>= 0.0`, in call order and with their
multiplicity (the filtered sequence); no value below zero is in the list. -/
theorem C1_addFovCircle_keeps_nonneg_in_order {σ : Type} (s : TelescopeClient σ)
    (fovs : List Double) (h : getFovCircles s = []) :
    getFovCircles (fovs.foldl addFovCircle s)
        = fovs.filter (fun f => Double.ge f Double.zero)
      ∧ (getFovCircles (fovs.foldl addFovCircle s)).Sublist fovs
      ∧ (∀ v, Double.lt v Double.zero = true →
          v ∉ getFovCircles (fovs.foldl addFovCircle s))
      ∧ (∀ v, Double.ge v Double.zero = true →
          (getFovCircles (fovs.foldl addFovCircle s)).count v = fovs.count v) := by
  have hf : getFovCircles (fovs.foldl addFovCircle s)
      = fovs.filter (fun f => Double.ge f Double.zero) := by
    rw [getFovCircles_foldl_addFovCircle, h, List.nil_append]
  rw [hf]
  refine ⟨rfl, List.filter_sublist fovs, ?_, ?_⟩
  · intro v hv hmem
    have hge := (List.mem_filter.mp hmem).2
    rw [Double.ge_zero_of_lt_zero v hv] at hge
    cases hge
  · intro v hv
    have hp : (fun f => Double.ge f Double.zero) v = true := hv
    exact List.count_filter hp

/-- C1 at a concrete input: `1.0, -1.0, NaN, 2.5, -0.0, 1.0` leaves
`1.0, 2.5, -0.0, 1.0`. -/
theorem C1_addFovCircle_keeps_nonneg_in_order_witness :
    getFovCircles sampleClient = []
      ∧ getFovCircles
          ([Double.one, Double.negOne, Double.qnan, Double.twoAndHalf, Double.negZero,
            Double.one].foldl addFovCircle sampleClient)
        = [Double.one, Double.twoAndHalf, Double.negZero, Double.one] :=
  ⟨rfl, (C1_addFovCircle_keeps_nonneg_in_order sampleClient
    [Double.one, Double.negOne, Double.qnan, Double.twoAndHalf, Double.negZero, Double.one]
    rfl).1.trans (by decide)⟩

/-- C2: in every state reached from a client with an empty FOV list by any
sequence of `addFovCircle` (any argument), `resetFovCircles`, default
`prepareCommunication` and default `performCommunication` calls, every
element of the FOV list passes `>= 0.0`, is not below zero, and, when it is
finite, denotes a rational number that is at least 0. -/
theorem C2_fovCircles_always_nonneg {σ : Type} (s : TelescopeClient σ)
    (h : getFovCircles s = []) (ops : List Op) :
    ∀ x ∈ getFovCircles (run s ops),
      Double.ge x Double.zero = true ∧ Double.lt x Double.zero = false
        ∧ ∀ q, x.toRat? = some q → 0 ≤ q := by
  have h0 : AllNonNeg s := by
    intro x hx
    rw [h] at hx
    cases hx
  intro x hx
  have hge := allNonNeg_run ops s h0 x hx
  exact ⟨hge, Double.lt_zero_of_ge_zero x hge, Double.toRat_nonneg_of_ge_zero x hge⟩

/-- C2 at a concrete input: after adding `-1.0`, `2.5`, resetting, polling and
adding `1.0` and `-1.0`, the stored values are all `>= 0.0`. -/
theorem C2_fovCircles_always_nonneg_witness :
    getFovCircles sampleClient = []
      ∧ ∀ x ∈ getFovCircles (run sampleClient
          [Op.addFovCircle Double.negOne, Op.addFovCircle Double.twoAndHalf,
           Op.resetFovCircles, Op.prepareCommunication, Op.performCommunication,
           Op.addFovCircle Double.one, Op.addFovCircle Double.negOne]),
        Double.ge x Double.zero = true ∧ Double.lt x Double.zero = false
          ∧ ∀ q, x.toRat? = some q → 0 ≤ q :=
  ⟨rfl, C2_fovCircles_always_nonneg sampleClient rfl _⟩

/-- C3: whatever the FOV list holds, after `resetFovCircles` the list
returned by `getFovCircles` is empty and has length 0. -/
theorem C3_resetFovCircles_empties {σ : Type} (s : TelescopeClient σ) :
    getFovCircles (resetFovCircles s) = []
      ∧ (getFovCircles (resetFovCircles s)).length = 0 :=
  ⟨rfl, rfl⟩

/-- C4: for a value below zero `addFovCircle` returns the state it was given
(the call is a total function, it has no error outcome, and the FOV list keeps
its elements, order and length); for a value that passes `>= 0.0` it appends
that value as the new last element; so the FOV list changes exactly when the
value passes `>= 0.0`. -/
theorem C4_addFovCircle_changes_iff_nonneg {σ : Type} (s : TelescopeClient σ)
    (fov : Double) :
    (Double.lt fov Double.zero = true →
        addFovCircle s fov = s
          ∧ getFovCircles (addFovCircle s fov) = getFovCircles s
          ∧ (getFovCircles (addFovCircle s fov)).length = (getFovCircles s).length)
      ∧ (Double.ge fov Double.zero = true →
        getFovCircles (addFovCircle s fov) = getFovCircles s ++ [fov]
          ∧ (getFovCircles (addFovCircle s fov)).getLast? = some fov
          ∧ (getFovCircles (addFovCircle s fov)).length = (getFovCircles s).length + 1)
      ∧ (getFovCircles (addFovCircle s fov) ≠ getFovCircles s
          ↔ Double.ge fov Double.zero = true) := by
  refine ⟨?_, ?_, ?_⟩
  · intro hlt
    have hs : addFovCircle s fov = s := by
      unfold addFovCircle
      rw [Double.ge_zero_of_lt_zero fov hlt]
      rfl
    rw [hs]
    exact ⟨rfl, rfl, rfl⟩
  · intro hge
    have hl : getFovCircles (addFovCircle s fov) = getFovCircles s ++ [fov] := by
      rw [getFovCircles_addFovCircle, hge]
      rfl
    rw [hl]
    refine ⟨rfl, ?_, ?_⟩
    · simp
    · simp
  · rw [getFovCircles_addFovCircle]
    cases hge : Double.ge fov Double.zero with
    | false => simp
    | true =>
      simp only [if_true, ne_eq, iff_true]
      intro heq
      have hlen := congrArg List.length heq
      simp at hlen

/-- C4 at concrete inputs: `-1.0` leaves the sample client as it is, `2.5`
becomes the last element of its FOV list. -/
theorem C4_addFovCircle_changes_iff_nonneg_witness :
    (Double.lt Double.negOne Double.zero = true
        ∧ addFovCircle sampleClient Double.negOne = sampleClient)
      ∧ (Double.ge Double.twoAndHalf Double.zero = true
        ∧ getFovCircles (addFovCircle sampleClient Double.twoAndHalf)
            = getFovCircles sampleClient ++ [Double.twoAndHalf]) :=
  ⟨⟨by decide,
      ((C4_addFovCircle_changes_iff_nonneg sampleClient Double.negOne).1 (by decide)).1⟩,
    ⟨by decide,
      ((C4_addFovCircle_changes_iff_nonneg sampleClient Double.twoAndHalf).2.1
        (by decide)).1⟩⟩

/-- C5: `addFovCircle` (any argument) and `resetFovCircles` change nothing but
the FOV list: `getEnglishName`, `getNameI18n`, the fields `name` and
`nameI18n` and all the state `ext` that the concrete client keeps
(connectivity, position) are the same after the call as before; the same
holds for a whole repopulation, a reset followed by any sequence of adds. -/
theorem C5_fov_operations_frame {σ : Type} (s : TelescopeClient σ) (fov : Double)
    (fovs : List Double) :
    (getEnglishName (addFovCircle s fov) = getEnglishName s
        ∧ getNameI18n (addFovCircle s fov) = getNameI18n s
        ∧ (addFovCircle s fov).ext = s.ext)
      ∧ (getEnglishName (resetFovCircles s) = getEnglishName s
        ∧ getNameI18n (resetFovCircles s) = getNameI18n s
        ∧ (resetFovCircles s).ext = s.ext)
      ∧ (getEnglishName (fovs.foldl addFovCircle (resetFovCircles s)) = getEnglishName s
        ∧ getNameI18n (fovs.foldl addFovCircle (resetFovCircles s)) = getNameI18n s
        ∧ (fovs.foldl addFovCircle (resetFovCircles s)).ext = s.ext)
      ∧ addFovCircle s fov = { s with fovCircles := getFovCircles (addFovCircle s fov) }
      ∧ resetFovCircles s = { s with fovCircles := getFovCircles (resetFovCircles s) } := by
  obtain ⟨a1, a2, a3⟩ := frame_addFovCircle s fov
  obtain ⟨f1, f2, f3⟩ := frame_foldl_addFovCircle fovs (resetFovCircles s)
  refine ⟨⟨a1, a2, a3⟩, ⟨rfl, rfl, rfl⟩, ⟨f1, f2, f3⟩, ?_, rfl⟩
  unfold addFovCircle getFovCircles
  split <;> rfl

/-- C6: calling the default `performCommunication` any number `n` of times
gives back the state it started from, so the FOV list, the names and the
state of the concrete client are the same after the calls. -/
theorem C6_performCommunication_idempotent {σ : Type} (s : TelescopeClient σ) (n : Nat) :
    (performCommunication^[n]) s = s
      ∧ performCommunication (performCommunication s) = performCommunication s
      ∧ getFovCircles ((performCommunication^[n]) s) = getFovCircles s
      ∧ getEnglishName ((performCommunication^[n]) s) = getEnglishName s
      ∧ getNameI18n ((performCommunication^[n]) s) = getNameI18n s
      ∧ ((performCommunication^[n]) s).ext = s.ext := by
  have h : (performCommunication^[n]) s = s := by
    induction n with
    | zero => rfl
    | succ k ih =>
      rw [Function.iterate_succ_apply]
      exact ih
  rw [h]
  exact ⟨rfl, rfl, rfl, rfl, rfl, rfl⟩

/-- C7: the default `prepareCommunication` returns false in every state and
leaves the state as it was. -/
theorem C7_prepareCommunication_default {σ : Type} (s : TelescopeClient σ) :
    (prepareCommunication s).1 = false ∧ (prepareCommunication s).2 = s :=
  ⟨rfl, rfl⟩

/-- C8: the default `isInitialized` returns true in every state, also in the
state after any sequence of FOV and communication calls. -/
theorem C8_isInitialized_default {σ : Type} (s : TelescopeClient σ) (ops : List Op) :
    isInitialized s = true ∧ isInitialized (run s ops) = true :=
  ⟨rfl, rfl⟩

/-- C9: `getSelectPriority` returns the one `float` value -10 for every
client, every state of it and every core argument (a null pointer
included). -/
theorem C9_getSelectPriority_constant {σ κ : Type} (s : TelescopeClient σ)
    (core : Option κ) :
    getSelectPriority s core = Float32.negTen
      ∧ (getSelectPriority s core).toRat? = some (-10)
      ∧ (∀ (t : TelescopeClient σ) (other : Option κ),
          getSelectPriority t other = getSelectPriority s core) := by
  refine ⟨rfl, ?_, fun _ _ => rfl⟩
  have h1 : Float32.negTen.exponent.val = 130 := rfl
  have h2 : Float32.negTen.mantissa.val = 2097152 := rfl
  have h3 : Float32.negTen.sign = true := rfl
  simp only [getSelectPriority, Float32.toRat?, h1, h2, h3]
  norm_num

/-- C10: over every run of the connection state machine the number of
`connectionEstablished` signals equals the number of transitions that enter
`Connected` from another state, the number of `connectionLost` signals equals
the number of transitions `Connected → Lost`, a poll that finds the client
already `Connected` emits nothing, and the run `Disconnected, Connecting,
Connected, Connected, Lost, Connected` emits established, lost, established:
two `connectionEstablished` and one `connectionLost`. -/
theorem C10_notifications_edge_triggered (states : List ConnState) :
    (emitted states).count Signal.connectionEstablished = establishedEdges states
      ∧ (emitted states).count Signal.connectionLost = lostEdges states
      ∧ notify ConnState.Connected ConnState.Connected = []
      ∧ (∀ prev, prev ≠ ConnState.Connected →
          notify prev ConnState.Connected = [Signal.connectionEstablished])
      ∧ notify ConnState.Connected ConnState.Lost = [Signal.connectionLost]
      ∧ emitted sampleRun
          = [Signal.connectionEstablished, Signal.connectionLost,
             Signal.connectionEstablished]
      ∧ (emitted sampleRun).count Signal.connectionEstablished = 2
      ∧ (emitted sampleRun).count Signal.connectionLost = 1 := by
  refine ⟨?_, ?_, rfl, ?_, rfl, by decide, by decide, by decide⟩
  · cases states with
    | nil => rfl
    | cons init rest => exact count_established_emitFrom rest init
  · cases states with
    | nil => rfl
    | cons init rest => exact count_lost_emitFrom rest init
  · intro prev hp
    cases prev <;> first | rfl | exact absurd rfl hp

/-- C10 at a concrete transition: entering `Connected` from `Lost` emits one
`connectionEstablished`. -/
theorem C10_notifications_edge_triggered_witness :
    ConnState.Lost ≠ ConnState.Connected
      ∧ notify ConnState.Lost ConnState.Connected = [Signal.connectionEstablished] :=
  ⟨by decide,
    (C10_notifications_edge_triggered sampleRun).2.2.2.1 ConnState.Lost (by decide)⟩

end Stellarium
